import Mathlib

/-!
Verification of the GeoNavision repository: a shallow embedding of the
proximity cache (src/storage.py), the markdown table extractor
(src/utilities.py) and the POI retrieval pipeline (src/app.py), with
theorems settling the specification claims about them.

Modelling conventions:
* Python strings are Lean String values; operations that the Lean core
  library implements with non-reducing iterators (split, strip, lower,
  lexicographic comparison) are re-implemented structurally over the
  underlying character lists, following the Python semantics by code point.
* Python floats are modelled as real numbers; the float formatting of
  distances is modelled up to rounding, and no claim depends on it.
* The SQLite table of storage.py is modelled as a list of records in
  insertion order (the order the SELECT without ORDER BY returns rows);
  datetime.now().isoformat() is passed as an explicit timestamp argument.
* External HTTP calls of app.py are modelled by explicit response values
  describing the possible shapes the source branches on.
-/

/-- Python str.split with a one-character separator, on character lists:
adjacent separators and boundary separators yield empty fields, and the
result always has one more field than there are separators. -/
def pySplitChar (c : Char) : List Char → List (List Char)
  | [] => [[]]
  | x :: xs =>
    match pySplitChar c xs with
    | [] => [[]]
    | g :: gs => if x = c then [] :: g :: gs else (x :: g) :: gs

/-- Characters removed by Python str.strip() with no argument (ASCII part
of the Python whitespace set; the claims only involve ASCII input). -/
def isPyWhitespace (c : Char) : Bool :=
  c == ' ' || c == '\t' || c == '\n' || c == '\r' || c == '\x0b' || c == '\x0c'

/-- Python str.strip-style trimming on character lists: drop the characters
satisfying p from both ends. -/
def stripList (p : Char → Bool) (l : List Char) : List Char :=
  ((l.dropWhile p).reverse.dropWhile p).reverse

/-- Python line.strip() for the ASCII inputs of the claims. -/
def pyStripWs (s : String) : String := ⟨stripList isPyWhitespace s.toList⟩

/-- Python str.lower() (ASCII case mapping; the claims only involve ASCII
query strings). -/
def pyLower (s : String) : String := ⟨s.toList.map Char.toLower⟩

/-- Python string comparison s1 < s2 is lexicographic by code point, which
is exactly the list order on the character lists. -/
def pyStrLt (s₁ s₂ : String) : Prop := s₁.toList < s₂.toList

instance (s₁ s₂ : String) : Decidable (pyStrLt s₁ s₂) :=
  inferInstanceAs (Decidable (s₁.toList < s₂.toList))

/-! ## src/storage.py: the proximity cache -/

/-- One row of the cached_queries table (storage.py, CREATE TABLE at
lines 26-36).  The id column is INTEGER PRIMARY KEY AUTOINCREMENT; lat and
lon are REAL, the rest TEXT.  table_data holds the JSON serialization
produced by save_query_result. -/
structure CacheRecord where
  id : Nat
  query : String
  lat : ℝ
  lon : ℝ
  summary : String
  table_data : String
  timestamp : String

/-- One step of selecting the most recent record: keeps the current best
unless the next record has a strictly later timestamp.  Folding this over
a list returns the first record carrying the maximal timestamp, which is
exactly the head of the stable descending sort
sorted(valid_results, key=lambda x: x["timestamp"], reverse=True)[0]
of storage.py line 71 (CPython sorting is stable, and reverse=True keeps
equal keys in original order). -/
def recentStep (best x : CacheRecord) : CacheRecord :=
  if pyStrLt best.timestamp x.timestamp then x else best

/-- Lines 67-71 of storage.py: None on an empty candidate list, otherwise
the most recent candidate. -/
def most_recent : List CacheRecord → Option CacheRecord
  | [] => none
  | r :: rs => some (rs.foldl recentStep r)

/- The great-circle distance in meters used by find_nearby_query
(storage.py line 60), from the geopy formula, and the cache lookup built
on it.  Real-valued trigonometry is noncomputable in Lean. -/
noncomputable section

/-- Degrees to radians, as math.radians. -/
def radians (d : ℝ) : ℝ := d * Real.pi / 180

/-- Python math.atan2 y x.  For the nonnegative first arguments produced
by the great-circle formula it coincides with the complex argument of
x + y*i, which is how it is modelled. -/
def atan2 (y x : ℝ) : ℝ := Complex.arg ⟨x, y⟩

/-- The central angle computed by geopy great_circle.measure: with
lat/lng converted to radians,
atan2(sqrt((cos lat2 * sin d)^2 + (cos lat1 * sin lat2 - sin lat1 * cos lat2 * cos d)^2),
      sin lat1 * sin lat2 + cos lat1 * cos lat2 * cos d)
where d is the longitude difference.  geopy Point validation rejects
latitudes outside [-90, 90] and normalizes longitudes modulo 360, which
leaves every sin and cos here unchanged, so normalization is omitted. -/
def great_circle_angle (a b : ℝ × ℝ) : ℝ :=
  atan2
    (Real.sqrt
      ((Real.cos (radians b.1) * Real.sin (radians b.2 - radians a.2)) ^ 2 +
        (Real.cos (radians a.1) * Real.sin (radians b.1) -
          Real.sin (radians a.1) * Real.cos (radians b.1) *
            Real.cos (radians b.2 - radians a.2)) ^ 2))
    (Real.sin (radians a.1) * Real.sin (radians b.1) +
      Real.cos (radians a.1) * Real.cos (radians b.1) *
        Real.cos (radians b.2 - radians a.2))

/-- geopy great_circle(...).km: EARTH_RADIUS = 6371.009 kilometers times
the central angle. -/
def great_circle_km (a b : ℝ × ℝ) : ℝ :=
  (6371009 / 1000 : ℝ) * great_circle_angle a b

/-- geopy great_circle(...).meters: kilometers times 1000. -/
def great_circle_meters (a b : ℝ × ℝ) : ℝ := great_circle_km a b * 1000

open Classical in
/-- Lines 57-65 of storage.py: walk the selected rows and keep those whose
great-circle distance from the user location is within the threshold. -/
def valid_results (user : ℝ × ℝ) (threshold : ℝ) : List CacheRecord → List CacheRecord
  | [] => []
  | r :: rs =>
    if great_circle_meters user (r.lat, r.lon) ≤ threshold then
      r :: valid_results user threshold rs
    else
      valid_results user threshold rs

/-- The candidate records of find_nearby_query: the SELECT with an exact
match on the lowercased query text (lines 51-55) followed by the distance
filter (lines 57-65). -/
def qualifying (db : List CacheRecord) (query_text : String) (lat lon threshold : ℝ) :
    List CacheRecord :=
  valid_results (lat, lon) threshold (db.filter (fun r => r.query == pyLower query_text))

/-- storage.py lines 41-71.  The source returns the winning row as a dict
with its table_data JSON-decoded; decoding only re-presents the stored
payload, so the record is returned as stored. -/
def find_nearby_query (db : List CacheRecord) (query_text : String) (lat lon : ℝ)
    (threshold_meters : ℝ := 100) : Option CacheRecord :=
  most_recent (qualifying db query_text lat lon threshold_meters)

end

/-- The row INSERTed by save_query_result: lowercased query text, the
coordinates, the serialized table, the summary and the timestamp.  The
AUTOINCREMENT id of a fresh row in an insert-only table is one more than
the current row count. -/
def savedRecord (db : List CacheRecord) (query_text : String) (lat lon : ℝ)
    (table_json : String) (summary : String) (timestamp : String) : CacheRecord :=
  { id := db.length + 1, query := pyLower query_text, lat := lat, lon := lon,
    summary := summary, table_data := table_json, timestamp := timestamp }

/-- storage.py lines 73-85: INSERT a single new row, stamped with the
current time (datetime.now().isoformat(), passed here explicitly);
df.to_dict serialization is kept as the opaque serialized string
table_json. -/
def save_query_result (db : List CacheRecord) (query_text : String) (lat lon : ℝ)
    (table_json : String) (summary : String) (timestamp : String) : List CacheRecord :=
  db ++ [savedRecord db query_text lat lon table_json summary timestamp]

/-! ## src/utilities.py: the markdown table extractor -/

/-- A langchain Document as consumed by parse_markdown_table: page content
plus a metadata dict (values rendered as strings for the tabular join). -/
structure Doc where
  page_content : String
  metadata : List (String × String)

/-- A pandas DataFrame over string cells: column labels plus rows. -/
structure DataFrame where
  cols : List String
  rows : List (List String)
deriving DecidableEq

/-- The empty DataFrame pd.DataFrame(). -/
def DataFrame.empty : DataFrame := ⟨[], []⟩

/-- utilities.py lines 43-46: strip the leading and trailing pipes, split
on the pipe character, and strip whitespace from every cell. -/
def split_row (s : String) : List String :=
  (pySplitChar '|' (stripList (· == '|') s.toList)).map
    (fun cs => (⟨stripList isPyWhitespace cs⟩ : String))

/-- utilities.py line 38: keep the lines containing a pipe, stripped. -/
def table_lines (md : String) : List String :=
  ((pySplitChar '\n' md.toList).filter (fun l => l.contains '|')).map
    (fun l => (⟨stripList isPyWhitespace l⟩ : String))

/-- utilities.py lines 20-33.  The source runs, per document:
meta = doc.metadata (a dict), then tests "not meta.latitude"; attribute
access on a dict raises AttributeError, so the except branch at lines
31-33 runs for every document and appends the empty dict.  Hence every
document contributes the empty record, whatever its metadata holds. -/
def extract_meta_data (docs : List Doc) : List (List (String × String)) :=
  docs.map (fun _ => [])

/-- Column labels of pd.DataFrame(list-of-dicts): union of the dict keys
in order of first appearance. -/
def record_keys (recs : List (List (String × String))) : List String :=
  ((recs.map (fun r => r.map Prod.fst)).flatten).dedup

/-- pd.DataFrame(list-of-dicts): one row per dict, cells looked up by
column label, NaN (rendered as a string) for a missing key. -/
def df_of_records (recs : List (List (String × String))) : DataFrame :=
  let cols := record_keys recs
  ⟨cols, recs.map (fun rec =>
    cols.map (fun c => (((rec.find? (fun kv => kv.1 == c)).map Prod.snd).getD "NaN")))⟩

/-- pd.concat([d1, d2], axis=1) on default integer indices: the columns
side by side, rows aligned by position, NaN-padded where one side is
shorter. -/
def concat_axis1 (d1 d2 : DataFrame) : DataFrame :=
  ⟨d1.cols ++ d2.cols,
   (List.range (max d1.rows.length d2.rows.length)).map (fun i =>
     d1.rows.getD i (d1.cols.map (fun _ => "NaN")) ++
     d2.rows.getD i (d2.cols.map (fun _ => "NaN")))⟩

/-- utilities.py lines 7-65, parse_markdown_table(md_string, docs):
extract the (always empty, see extract_meta_data) metadata records, keep
the pipe-containing lines, read the first as the header row, discard the
second unconditionally, keep the remaining rows whose cell count matches
the header, truncate the metadata frame to the parsed row count
(meta_df.iloc[:len(parsed_df)]) and concatenate the two frames by
position. -/
def parse_markdown_table (md_string : String) (docs : List Doc := []) : DataFrame :=
  let meta_data := extract_meta_data docs
  let meta_df := if meta_data.isEmpty then DataFrame.empty else df_of_records meta_data
  let lines := table_lines md_string
  match lines with
  | [] => DataFrame.empty
  | l0 :: rest =>
    let headers := split_row l0
    let data_rows := ((rest.drop 1).map split_row).filter
      (fun r => r.length = headers.length)
    let parsed : DataFrame := ⟨headers, data_rows⟩
    concat_axis1 parsed ⟨meta_df.cols, meta_df.rows.take parsed.rows.length⟩

/-! ## src/app.py: the POI retrieval pipeline -/

/-- A raw POI dict from the mapping provider, as read by
_get_relevant_documents: poi.get("name"), poi.get("vicinity"), and the
chain poi.get("geometry", \x7b\x7d).get("location", \x7b\x7d).get("lat"/"lng");
a missing key at any level of the chain yields none. -/
structure POI where
  name : Option String
  vicinity : Option String
  lat : Option ℝ
  lng : Option ℝ

/-- The outcome of the nearby-search HTTP call in _get_pois_from_maps:
either a decoded JSON body carrying a status string and a results list
(a missing results key is the empty list), or a raised
requests.exceptions.RequestException (including raise_for_status). -/
inductive MapsFetch where
  | response (status : String) (results : List POI)
  | httpError

/-- app.py lines 36-60: return the results when the body status is OK;
report the provider error and return the empty list otherwise; return the
empty list on an HTTP error. -/
def _get_pois_from_maps : MapsFetch → List POI
  | MapsFetch.response status results => if status = "OK" then results else []
  | MapsFetch.httpError => []

/-- The outcome of one custom-search HTTP call in _get_search_snippet:
a decoded items list (a missing items key is the empty list), each item
with an optional snippet field, or a raised exception.  The source
handles RequestException and any other Exception with the same
placeholder, so both are one failure constructor. -/
inductive SearchFetch where
  | response (items : List (Option String))
  | httpError

/-- app.py lines 62-88: the snippet of the first item, with a fixed
placeholder when the item has no snippet, when there are no items, or
when the call raised. -/
def _get_search_snippet : SearchFetch → String
  | SearchFetch.response [] => "No description found."
  | SearchFetch.response (item :: _) => item.getD "No description found."
  | SearchFetch.httpError => "Error fetching description."

/-- The distance_km metadata value: the sentinel "N/A" string, or a
computed great-circle distance in km (the source formats it with one
decimal; the digits are irrelevant to every claim and are rendered only
inside format_docs_for_prompt). -/
inductive DistTag where
  | na
  | km (x : ℝ)
deriving Inhabited

/-- Python truthiness of an optional float: None and 0.0 are falsy. -/
def truthyR : Option ℝ → Prop
  | none => False
  | some x => x ≠ 0

/-- A LangChain Document built at app.py lines 119-129: the snippet as
page content and the metadata dict flattened into fields. -/
structure AppDocument where
  page_content : String
  poi_name : String
  address : String
  source : String
  distance_km : DistTag
  latitude : Option ℝ
  longitude : Option ℝ

noncomputable section

open Classical in
/-- One iteration of the loop at app.py lines 100-130: defaults for name
and vicinity, the distance computed only when both coordinates are truthy
(so 0.0 and missing coordinates both give the "N/A" sentinel), the
snippet fetched for this POI, and the document assembled. -/
def mkDocument (user : ℝ × ℝ) (sf : SearchFetch) (poi : POI) : AppDocument :=
  let dist : DistTag :=
    if truthyR poi.lat ∧ truthyR poi.lng then
      DistTag.km (great_circle_km user (poi.lat.getD 0, poi.lng.getD 0))
    else DistTag.na
  { page_content := _get_search_snippet sf
    poi_name := poi.name.getD "Unknown Place"
    address := poi.vicinity.getD ""
    source := "google_maps_and_search"
    distance_km := dist
    latitude := poi.lat
    longitude := poi.lng }

/-- The document loop of _get_relevant_documents, with k the index of the
next POI: the i-th document is built from the i-th POI and the outcome of
the i-th search-snippet call (the calls happen one per POI, in order). -/
def docsAux (user : ℝ × ℝ) (search : Nat → SearchFetch) : Nat → List POI → List AppDocument
  | _, [] => []
  | k, poi :: rest => mkDocument user (search k) poi :: docsAux user search (k + 1) rest

/-- app.py lines 90-132: fetch the POIs, then build one document per POI
in provider order.  The per-POI search outcomes are indexed by call
position. -/
def _get_relevant_documents (user : ℝ × ℝ) (maps : MapsFetch)
    (search : Nat → SearchFetch) : List AppDocument :=
  docsAux user search 0 (_get_pois_from_maps maps)

/-- Rendering of a distance tag inside the prompt context: "N/A" or the
kilometers to one decimal (the f-string rounding of the source, modelled
with the exact round; no claim depends on these digits). -/
def DistTag.render : DistTag → String
  | DistTag.na => "N/A"
  | DistTag.km x =>
    toString (round (x * 10) / 10) ++ "." ++ toString ((round (x * 10)) % 10)

/-- app.py lines 135-148: the fixed no-information text on an empty list,
otherwise the per-document blocks joined by blank lines. -/
def format_docs_for_prompt (docs : List AppDocument) : String :=
  if docs.isEmpty then "No information found for that query."
  else
    String.intercalate "\n\n" (docs.map (fun d =>
      "**" ++ d.poi_name ++ "** (Distance: " ++ d.distance_km.render ++ " km)\n" ++
      "Address: " ++ d.address ++ "\n" ++
      "Summary: " ++ d.page_content))

/-- The prompt template of app.py lines 175-188 applied to the formatted
context (PromptTemplate.from_template followed by .invoke). -/
def promptApply (context : String) : String :=
  "\n    You are a friendly and engaging AI tour guide.\n    Your task is to provide a short, exciting summary of Points of Interest (POIs) near the user, based *only* on the context provided.\n    \n    - Use the distance information to help the user understand what\x27s nearby.\n    - List each place as a bullet point.\n    - Start with a friendly greeting!\n    \n    CONTEXT ABOUT NEARBY PLACES:\n    " ++
  context ++
  "\n    \n    YOUR TASK:\n    Write a brief, one-paragraph summary for the user, highlighting the places from the context.\n    "

open Classical in
/-- The map-data loop of app.py lines 212-218: one lat/lon pair per
document whose latitude and longitude metadata are both truthy. -/
def mapData : List AppDocument → List (ℝ × ℝ)
  | [] => []
  | d :: ds =>
    if truthyR d.latitude ∧ truthyR d.longitude then
      (d.latitude.getD 0, d.longitude.getD 0) :: mapData ds
    else mapData ds

/-- app.py lines 152-221, get_rag_response: retrieve the documents; when
none were found return the fixed sorry-nothing-found text and a None map;
otherwise format the context, run the prompt-model-parser chain (the
language model modelled as the function llm), build the map data and
return both.  API keys and the retriever construction carry no logic and
are omitted. -/
def get_rag_response (user : ℝ × ℝ) (maps : MapsFetch) (search : Nat → SearchFetch)
    (llm : String → String) : String × Option (List (ℝ × ℝ)) :=
  let docs := _get_relevant_documents user maps search
  if docs.isEmpty then
    ("Sorry, I couldn\x27t find anything for that search.", none)
  else
    let formatted_context := format_docs_for_prompt docs
    let summary := llm (promptApply formatted_context)
    (summary, some (mapData docs))

end

/-! ## Concrete inputs used by the claim witnesses and counterexamples -/

/-- A stored cache row: "museums" at the origin, saved first. -/
def recA : CacheRecord :=
  { id := 1, query := "museums", lat := 0, lon := 0, summary := "s0",
    table_data := "[]", timestamp := "2024-01-01T00:00:00" }

/-- A second stored cache row for the same query and location, saved one
day later. -/
def recB : CacheRecord :=
  { id := 2, query := "museums", lat := 0, lon := 0, summary := "s1",
    table_data := "[]", timestamp := "2024-01-02T00:00:00" }

/-- A two-row cache state. -/
def db0 : List CacheRecord := [recA, recB]

/-- A one-row cache state. -/
def db1 : List CacheRecord := [recA]

/-- A POI without coordinates in the provider payload. -/
def poiP : POI := { name := some "Pergamon", vicinity := some "Museum Island", lat := none, lng := none }

/-- A second POI without coordinates. -/
def poiQ : POI := { name := some "Altes Museum", vicinity := some "Museum Island", lat := none, lng := none }

/-- A POI whose returned latitude is exactly 0.0 (Null Island). -/
def poiZ : POI := { name := some "Null Island Buoy", vicinity := some "Gulf of Guinea", lat := some 0, lng := some 55 }

/-- A search world where the first snippet call returns no items and every
other call returns one item with a snippet. -/
def searchW : Nat → SearchFetch := fun j =>
  if j = 0 then SearchFetch.response [] else SearchFetch.response [some "A nice place"]

/-! ## Facts about the great-circle distance -/

theorem atan2_zero_one : atan2 0 1 = 0 := by
  unfold atan2
  have h : (⟨1, 0⟩ : ℂ) = 1 := by
    apply Complex.ext <;> simp
  rw [h, Complex.arg_one]

theorem great_circle_angle_self (a : ℝ × ℝ) : great_circle_angle a a = 0 := by
  unfold great_circle_angle
  rw [sub_self, Real.sin_zero, Real.cos_zero]
  rw [show (Real.cos (radians a.1) * 0) ^ 2 +
      (Real.cos (radians a.1) * Real.sin (radians a.1) -
        Real.sin (radians a.1) * Real.cos (radians a.1) * 1) ^ 2 = 0 from by ring]
  rw [Real.sqrt_zero]
  rw [show Real.sin (radians a.1) * Real.sin (radians a.1) +
      Real.cos (radians a.1) * Real.cos (radians a.1) * 1 = 1 from by
    linear_combination Real.sin_sq_add_cos_sq (radians a.1)]
  exact atan2_zero_one

theorem great_circle_angle_symm (a b : ℝ × ℝ) :
    great_circle_angle a b = great_circle_angle b a := by
  unfold great_circle_angle
  have hsin : Real.sin (radians a.2 - radians b.2) = -Real.sin (radians b.2 - radians a.2) := by
    rw [← Real.sin_neg, neg_sub]
  have hcos : Real.cos (radians a.2 - radians b.2) = Real.cos (radians b.2 - radians a.2) := by
    rw [← Real.cos_neg, neg_sub]
  rw [hsin, hcos]
  have h1 := Real.sin_sq_add_cos_sq (radians a.1)
  have h2 := Real.sin_sq_add_cos_sq (radians b.1)
  have h3 := Real.sin_sq_add_cos_sq (radians b.2 - radians a.2)
  congr 1
  · congr 1
    linear_combination (-(1 - Real.cos (radians b.2 - radians a.2) ^ 2) *
        Real.cos (radians b.1) ^ 2) * h1 +
      ((1 - Real.cos (radians b.2 - radians a.2) ^ 2) * Real.cos (radians a.1) ^ 2) * h2 +
      (Real.cos (radians b.1) ^ 2 - Real.cos (radians a.1) ^ 2) * h3
  · ring

theorem great_circle_meters_self (a : ℝ × ℝ) : great_circle_meters a a = 0 := by
  unfold great_circle_meters great_circle_km
  rw [great_circle_angle_self]; ring

theorem great_circle_meters_symm (a b : ℝ × ℝ) :
    great_circle_meters a b = great_circle_meters b a := by
  unfold great_circle_meters great_circle_km
  rw [great_circle_angle_symm]

theorem great_circle_meters_pole :
    great_circle_meters ((90:ℝ), (0:ℝ)) ((90:ℝ), (1:ℝ)) = 0 := by
  simp only [great_circle_meters, great_circle_km, great_circle_angle]
  have h90 : radians 90 = Real.pi / 2 := by unfold radians; ring
  rw [h90, Real.cos_pi_div_two, Real.sin_pi_div_two]
  rw [show ((0:ℝ) * Real.sin (radians 1 - radians 0)) ^ 2 +
      (0 * 1 - 1 * 0 * Real.cos (radians 1 - radians 0)) ^ 2 = 0 from by ring]
  rw [Real.sqrt_zero]
  rw [show (1:ℝ) * 1 + 0 * 0 * Real.cos (radians 1 - radians 0) = 1 from by ring]
  rw [atan2_zero_one]; ring

/-! ## Facts about the cache lookup -/

theorem foldl_recentStep_mem (init : CacheRecord) (l : List CacheRecord) :
    l.foldl recentStep init = init ∨ l.foldl recentStep init ∈ l := by
  induction l generalizing init with
  | nil => exact Or.inl rfl
  | cons x xs ih =>
    rw [List.foldl_cons]
    rcases ih (recentStep init x) with h | h
    · rw [h]
      unfold recentStep
      split
      · exact Or.inr (List.mem_cons_self _ _)
      · exact Or.inl rfl
    · exact Or.inr (List.mem_cons_of_mem _ h)

theorem foldl_recentStep_ub (init : CacheRecord) (l : List CacheRecord) :
    init.timestamp.toList ≤ (l.foldl recentStep init).timestamp.toList ∧
    ∀ s ∈ l, s.timestamp.toList ≤ (l.foldl recentStep init).timestamp.toList := by
  induction l generalizing init with
  | nil => exact ⟨le_refl _, by simp⟩
  | cons x xs ih =>
    have hstep : init.timestamp.toList ≤ (recentStep init x).timestamp.toList ∧
        x.timestamp.toList ≤ (recentStep init x).timestamp.toList := by
      unfold recentStep
      split
      · next hlt => exact ⟨le_of_lt hlt, le_refl _⟩
      · next hlt => exact ⟨le_refl _, le_of_not_lt hlt⟩
    rw [List.foldl_cons]
    obtain ⟨h1, h2⟩ := ih (recentStep init x)
    refine ⟨le_trans hstep.1 h1, ?_⟩
    intro s hs
    rcases List.mem_cons.mp hs with rfl | hs
    · exact le_trans hstep.2 h1
    · exact h2 s hs

theorem most_recent_spec (l : List CacheRecord) (h : l ≠ []) :
    ∃ r, most_recent l = some r ∧ r ∈ l ∧
      ∀ s ∈ l, s.timestamp.toList ≤ r.timestamp.toList := by
  match l with
  | [] => exact absurd rfl h
  | x :: xs =>
    refine ⟨xs.foldl recentStep x, rfl, ?_, ?_⟩
    · rcases foldl_recentStep_mem x xs with h1 | h1
      · rw [h1]; exact List.mem_cons_self _ _
      · exact List.mem_cons_of_mem _ h1
    · intro s hs
      rcases List.mem_cons.mp hs with rfl | hs
      · exact (foldl_recentStep_ub s xs).1
      · exact (foldl_recentStep_ub x xs).2 s hs

theorem most_recent_append_fresh (l : List CacheRecord) (x : CacheRecord)
    (h : ∀ s ∈ l, pyStrLt s.timestamp x.timestamp) :
    most_recent (l ++ [x]) = some x := by
  match l with
  | [] => rfl
  | r :: rs =>
    show some (List.foldl recentStep r (rs ++ [x])) = some x
    rw [List.foldl_append, List.foldl_cons, List.foldl_nil]
    congr 1
    have hb : List.foldl recentStep r rs ∈ r :: rs := by
      rcases foldl_recentStep_mem r rs with h1 | h1
      · rw [h1]; exact List.mem_cons_self _ _
      · exact List.mem_cons_of_mem _ h1
    simp only [recentStep, if_pos (h _ hb)]

theorem valid_results_append (u : ℝ × ℝ) (t : ℝ) (l₁ l₂ : List CacheRecord) :
    valid_results u t (l₁ ++ l₂) = valid_results u t l₁ ++ valid_results u t l₂ := by
  induction l₁ with
  | nil => simp [valid_results]
  | cons r rs ih =>
    by_cases hc : great_circle_meters u (r.lat, r.lon) ≤ t
    · simp only [List.cons_append, valid_results, if_pos hc, List.append_eq, ih]
    · simp only [List.cons_append, valid_results, if_neg hc, List.append_eq, ih]

theorem valid_results_at_user (u : ℝ × ℝ) (t : ℝ) (l : List CacheRecord)
    (ht : 0 ≤ t) (hl : ∀ r ∈ l, (r.lat, r.lon) = u) :
    valid_results u t l = l := by
  induction l with
  | nil => simp [valid_results]
  | cons r rs ih =>
    have hr : great_circle_meters u (r.lat, r.lon) ≤ t := by
      rw [hl r (List.mem_cons_self _ _), great_circle_meters_self]
      exact ht
    simp only [valid_results, if_pos hr]
    rw [ih (fun s hs => hl s (List.mem_cons_of_mem _ hs))]

theorem qualifying_save (db : List CacheRecord) (q q2 : String) (lat lon t : ℝ)
    (tj summ ts : String) (hq : pyLower q2 = pyLower q) (ht : 0 ≤ t) :
    qualifying (save_query_result db q lat lon tj summ ts) q2 lat lon t =
      qualifying db q2 lat lon t ++ [savedRecord db q lat lon tj summ ts] := by
  unfold qualifying save_query_result
  rw [List.filter_append, valid_results_append]
  congr 1
  have hkeep : List.filter (fun r => r.query == pyLower q2)
      [savedRecord db q lat lon tj summ ts] = [savedRecord db q lat lon tj summ ts] := by
    simp [savedRecord, List.filter, hq]
  rw [hkeep]
  have hd : great_circle_meters (lat, lon)
      ((savedRecord db q lat lon tj summ ts).lat, (savedRecord db q lat lon tj summ ts).lon)
      ≤ t := by
    show great_circle_meters (lat, lon) (lat, lon) ≤ t
    rw [great_circle_meters_self]; exact ht
  simp only [valid_results, if_pos hd]

theorem qualifying_all (db : List CacheRecord) (q : String) (lat lon t : ℝ)
    (hq : ∀ r ∈ db, r.query = pyLower q)
    (hloc : ∀ r ∈ db, (r.lat, r.lon) = (lat, lon)) (ht : 0 ≤ t) :
    qualifying db q lat lon t = db := by
  unfold qualifying
  have hf : db.filter (fun r => r.query == pyLower q) = db :=
    List.filter_eq_self.mpr (fun r hr => beq_iff_eq.mpr (hq r hr))
  rw [hf]
  exact valid_results_at_user _ _ _ ht hloc

/-! ## Claim C4 -/

/-- Claim C4, counterexample: the distance of the source (geopy
great_circle on the coordinate pairs) is zero on two distinct (lat, lon)
pairs, namely two pairs at latitude 90, so distance zero does not imply
equality of the pairs and the claim as stated is false. -/
theorem great_circle_zero_on_distinct_pairs :
    great_circle_meters ((90:ℝ), (0:ℝ)) ((90:ℝ), (1:ℝ)) = 0 ∧
    ((90:ℝ), (0:ℝ)) ≠ ((90:ℝ), (1:ℝ)) := by
  refine ⟨great_circle_meters_pole, ?_⟩
  intro h
  have h2 := congrArg Prod.snd h
  norm_num at h2

/-- Claim C4, amended: for all (lat, lon) pairs a and b,
distance(a, b) == distance(b, a), and distance(a, a) == 0 for every a;
distance zero however does not force a == b, because distinct pairs can
denote the same point of the sphere. -/
theorem great_circle_symm_and_self_zero :
    (∀ a b : ℝ × ℝ, great_circle_meters a b = great_circle_meters b a) ∧
    (∀ a : ℝ × ℝ, great_circle_meters a a = 0) :=
  ⟨great_circle_meters_symm, great_circle_meters_self⟩

/-! ## Claim C1 -/

/-- Claim C1: for every probe (query text, location, threshold), if two or
more stored records share the probe normalized (lowercased) query text and
lie within threshold meters of the probe location (the qualifying
records), find_nearby_query returns one of them, and no qualifying record
has a timestamp string that is lexicographically later (Python string
comparison) than the returned one. -/
theorem find_nearby_query_latest (db : List CacheRecord) (q : String)
    (lat lon threshold : ℝ)
    (h2 : 2 ≤ (qualifying db q lat lon threshold).length) :
    ∃ r, find_nearby_query db q lat lon threshold = some r ∧
      r ∈ qualifying db q lat lon threshold ∧
      ∀ s ∈ qualifying db q lat lon threshold, ¬ pyStrLt r.timestamp s.timestamp := by
  have hne : qualifying db q lat lon threshold ≠ [] := by
    intro h
    rw [h] at h2
    simp at h2
  obtain ⟨r, h1, hm, h3⟩ := most_recent_spec _ hne
  exact ⟨r, h1, hm, fun s hs => not_lt.mpr (h3 s hs)⟩

/-- Witness for claim C1: a cache holding two rows for "museums" at the
origin; the probe "Museums" at the origin with threshold 100 has both rows
qualifying. -/
theorem find_nearby_query_latest_witness :
    2 ≤ (qualifying db0 "Museums" 0 0 100).length ∧
    (∃ r, find_nearby_query db0 "Museums" 0 0 100 = some r ∧
      r ∈ qualifying db0 "Museums" 0 0 100 ∧
      ∀ s ∈ qualifying db0 "Museums" 0 0 100, ¬ pyStrLt r.timestamp s.timestamp) := by
  have hq : qualifying db0 "Museums" 0 0 100 = db0 := by
    apply qualifying_all
    · intro r hr
      rcases List.mem_cons.mp hr with rfl | hr
      · decide
      · rcases List.mem_singleton.mp hr with rfl
        decide
    · intro r hr
      rcases List.mem_cons.mp hr with rfl | hr
      · rfl
      · rcases List.mem_singleton.mp hr with rfl
        rfl
    · norm_num
  have h2 : 2 ≤ (qualifying db0 "Museums" 0 0 100).length := by
    rw [hq]
    simp [db0]
  exact ⟨h2, find_nearby_query_latest db0 "Museums" 0 0 100 h2⟩

/-! ## Claim C2 -/

/-- Claim C2, counterexample: save-then-find does not return the saved
record when an earlier record carries the very same timestamp string
(possible since datetime.now().isoformat() has finite resolution).  Here
db1 already holds recA with the same timestamp as the new save; no
qualifying record is MORE recent than the saved one, the threshold is
nonnegative and the query matches up to case, yet find returns recA
(the stable descending sort keeps the earlier row first on ties), not the
saved record. -/
theorem save_then_find_tie : (0:ℝ) ≤ 100 ∧
    pyLower "museums" = pyLower "museums" ∧
    (∀ r ∈ qualifying db1 "museums" 0 0 100,
      ¬ pyStrLt "2024-01-01T00:00:00" r.timestamp) ∧
    find_nearby_query (save_query_result db1 "museums" 0 0 "[]" "s1" "2024-01-01T00:00:00")
        "museums" 0 0 100 ≠
      some (savedRecord db1 "museums" 0 0 "[]" "s1" "2024-01-01T00:00:00") := by
  have hdb1 : qualifying db1 "museums" 0 0 100 = db1 := by
    apply qualifying_all
    · intro r hr
      rcases List.mem_singleton.mp hr with rfl
      decide
    · intro r hr
      rcases List.mem_singleton.mp hr with rfl
      rfl
    · norm_num
  refine ⟨by norm_num, rfl, ?_, ?_⟩
  · intro r hr
    rw [hdb1] at hr
    rcases List.mem_singleton.mp hr with rfl
    decide
  · have hfind : find_nearby_query
        (save_query_result db1 "museums" 0 0 "[]" "s1" "2024-01-01T00:00:00")
        "museums" 0 0 100 = some recA := by
      show most_recent _ = some recA
      rw [qualifying_save db1 "museums" "museums" 0 0 100 "[]" "s1" "2024-01-01T00:00:00"
        rfl (by norm_num), hdb1]
      show some (List.foldl recentStep recA
        [savedRecord db1 "museums" 0 0 "[]" "s1" "2024-01-01T00:00:00"]) = some recA
      rw [List.foldl_cons, List.foldl_nil]
      simp only [recentStep, if_neg (by decide :
        ¬ pyStrLt recA.timestamp
          (savedRecord db1 "museums" 0 0 "[]" "s1" "2024-01-01T00:00:00").timestamp)]
    rw [hfind]
    intro hcontra
    have heq := Option.some.inj hcontra
    have hsum := congrArg CacheRecord.summary heq
    exact absurd hsum (by decide)

/-- Claim C2, amended: after save(q, loc, data, summary) stamped ts, a
find(q2, loc, threshold) with threshold nonnegative and q2 equal to q up
to letter case returns the saved record, provided every other qualifying
record for that normalized query within the threshold is STRICTLY older
(strictly smaller timestamp string) than ts. -/
theorem save_then_find_returns_saved (db : List CacheRecord) (q q2 : String)
    (lat lon threshold : ℝ) (tj summ ts : String)
    (hq : pyLower q2 = pyLower q)
    (ht : 0 ≤ threshold)
    (hfresh : ∀ r ∈ qualifying db q2 lat lon threshold, pyStrLt r.timestamp ts) :
    find_nearby_query (save_query_result db q lat lon tj summ ts) q2 lat lon threshold =
      some (savedRecord db q lat lon tj summ ts) := by
  show most_recent _ = _
  rw [qualifying_save db q q2 lat lon threshold tj summ ts hq ht]
  exact most_recent_append_fresh _ _ hfresh

/-- Witness for the amended claim C2: saving "museums" at the origin over
a cache holding one strictly older row, then probing with "Museums" at
the origin and threshold 100, returns the saved record. -/
theorem save_then_find_returns_saved_witness :
    pyLower "Museums" = pyLower "museums" ∧ (0:ℝ) ≤ 100 ∧
    (∀ r ∈ qualifying db1 "Museums" 0 0 100, pyStrLt r.timestamp "2024-01-02T12:00:00") ∧
    find_nearby_query (save_query_result db1 "museums" 0 0 "[]" "s1" "2024-01-02T12:00:00")
        "Museums" 0 0 100 =
      some (savedRecord db1 "museums" 0 0 "[]" "s1" "2024-01-02T12:00:00") := by
  have hq : pyLower "Museums" = pyLower "museums" := by decide
  have ht : (0:ℝ) ≤ 100 := by norm_num
  have hdb1 : qualifying db1 "Museums" 0 0 100 = db1 := by
    apply qualifying_all
    · intro r hr
      rcases List.mem_singleton.mp hr with rfl
      decide
    · intro r hr
      rcases List.mem_singleton.mp hr with rfl
      rfl
    · norm_num
  have hfresh : ∀ r ∈ qualifying db1 "Museums" 0 0 100,
      pyStrLt r.timestamp "2024-01-02T12:00:00" := by
    intro r hr
    rw [hdb1] at hr
    rcases List.mem_singleton.mp hr with rfl
    decide
  exact ⟨hq, ht, hfresh,
    save_then_find_returns_saved db1 "museums" "Museums" 0 0 100 "[]" "s1"
      "2024-01-02T12:00:00" hq ht hfresh⟩

/-! ## Claim C5 -/

/-- Claim C5: the cache is append-only.  One save adds exactly one record
and leaves every previously stored record unchanged in place; a second
save for the same (query, location) adds another record, again leaving the
previous state unchanged, and the two added records are distinct rows
(their autoincrement ids differ), so repeated saves accumulate. -/
theorem save_query_result_append_only (db : List CacheRecord) (q : String)
    (lat lon : ℝ) (tj summ ts ts2 : String) :
    (save_query_result db q lat lon tj summ ts).length = db.length + 1 ∧
    (save_query_result db q lat lon tj summ ts).take db.length = db ∧
    (save_query_result (save_query_result db q lat lon tj summ ts) q lat lon tj summ ts2).length
      = db.length + 2 ∧
    (save_query_result (save_query_result db q lat lon tj summ ts) q lat lon tj summ ts2).take
      (db.length + 1) = save_query_result db q lat lon tj summ ts ∧
    (save_query_result (save_query_result db q lat lon tj summ ts) q lat lon tj summ ts2)[db.length]?
      = some (savedRecord db q lat lon tj summ ts) ∧
    (save_query_result (save_query_result db q lat lon tj summ ts) q lat lon tj summ ts2)[db.length + 1]?
      = some (savedRecord (save_query_result db q lat lon tj summ ts) q lat lon tj summ ts2) ∧
    savedRecord db q lat lon tj summ ts ≠
      savedRecord (save_query_result db q lat lon tj summ ts) q lat lon tj summ ts2 := by
  refine ⟨?_, ?_, ?_, ?_, ?_, ?_, ?_⟩
  · simp [save_query_result]
  · rw [show db.length = db.length from rfl]
    exact List.take_left db _
  · simp [save_query_result]
  · have hlen : db.length + 1 = (save_query_result db q lat lon tj summ ts).length := by
      simp [save_query_result]
    rw [hlen]
    exact List.take_left _ _
  · unfold save_query_result
    rw [List.append_assoc,
      List.getElem?_append_right (le_refl db.length)]
    simp
  · unfold save_query_result
    rw [List.append_assoc,
      List.getElem?_append_right (by omega : db.length ≤ db.length + 1)]
    simp [save_query_result]
  · intro h
    have hid := congrArg CacheRecord.id h
    simp [savedRecord, save_query_result] at hid

/-! ## Facts about the extractor -/

theorem map_getD_range {α : Type} (l : List α) (d : α) :
    (List.range l.length).map (fun i => l.getD i d) = l := by
  induction l with
  | nil => rfl
  | cons x xs ih =>
    rw [List.length_cons, List.range_succ_eq_map, List.map_cons, List.map_map]
    congr 1

theorem concat_axis1_empty_right (cols : List String) (rows : List (List String)) :
    concat_axis1 ⟨cols, rows⟩ ⟨[], []⟩ = ⟨cols, rows⟩ := by
  unfold concat_axis1
  congr 1
  · simp
  · rw [show max rows.length (List.length ([] : List (List String))) = rows.length from by simp]
    calc (List.range rows.length).map (fun i =>
          rows.getD i (cols.map (fun _ => "NaN")) ++
          (([] : List (List String)).getD i (([] : List String).map (fun _ => "NaN"))))
        = (List.range rows.length).map (fun i => rows.getD i (cols.map (fun _ => "NaN"))) :=
          List.map_congr_left (fun i _ => by simp [List.getD])
      _ = rows := map_getD_range _ _

theorem parse_markdown_table_no_docs (md : String) (l0 : String) (rest : List String)
    (h : table_lines md = l0 :: rest) :
    parse_markdown_table md [] =
      ⟨split_row l0,
       ((rest.drop 1).map split_row).filter (fun r => r.length = (split_row l0).length)⟩ := by
  unfold parse_markdown_table extract_meta_data
  rw [h]
  simp only [List.map_nil, List.isEmpty_nil, if_true, DataFrame.empty, List.take_nil]
  exact concat_axis1_empty_right _ _

/-! ## Claim C6 -/

/-- Claim C6: on any input whose pipe-containing lines are (after
stripping) the header line A|B, the separator line, and the single data
line x|y, extract_table yields exactly one record with column A holding x
and column B holding y. -/
theorem extract_table_round_trip (md : String)
    (h : table_lines md = ["A|B", "--|--", "x|y"]) :
    parse_markdown_table md [] = ⟨["A", "B"], [["x", "y"]]⟩ := by
  rw [parse_markdown_table_no_docs md "A|B" ["--|--", "x|y"] h]
  decide

/-- Witness for claim C6: the canonical three-line markdown table. -/
theorem extract_table_round_trip_witness :
    table_lines "A|B\n--|--\nx|y" = ["A|B", "--|--", "x|y"] ∧
    parse_markdown_table "A|B\n--|--\nx|y" [] = ⟨["A", "B"], [["x", "y"]]⟩ :=
  ⟨by decide, extract_table_round_trip _ (by decide)⟩

/-! ## Claim C7 -/

/-- Claim C7: among the kept lines after the header and the
unconditionally-discarded second kept line, every line whose cell count
equals the header cell count contributes its row to the output, and every
output row has the header cell count, so a mismatched line contributes
nothing; no error is possible since the extractor is a total function. -/
theorem malformed_rows_dropped (md : String) (l0 : String) (rest : List String)
    (h : table_lines md = l0 :: rest) :
    (∀ line ∈ rest.drop 1, (split_row line).length = (split_row l0).length →
      split_row line ∈ (parse_markdown_table md []).rows) ∧
    (∀ r ∈ (parse_markdown_table md []).rows, r.length = (split_row l0).length) := by
  have hp := parse_markdown_table_no_docs md l0 rest h
  constructor
  · intro line hline hlen
    rw [hp]
    exact List.mem_filter.mpr ⟨List.mem_map_of_mem _ hline, by simpa using hlen⟩
  · intro r hr
    rw [hp] at hr
    have hm := List.mem_filter.mp hr
    simpa using hm.2

/-- Witness for claim C7: a table whose fourth kept line has three cells
against a two-cell header (dropped) and whose third and fifth kept lines
have two cells (kept). -/
theorem malformed_rows_dropped_witness :
    table_lines "A|B\n--|--\nx|y\np|q|r\nu|v" = "A|B" :: ["--|--", "x|y", "p|q|r", "u|v"] ∧
    ((∀ line ∈ ["--|--", "x|y", "p|q|r", "u|v"].drop 1,
        (split_row line).length = (split_row "A|B").length →
        split_row line ∈ (parse_markdown_table "A|B\n--|--\nx|y\np|q|r\nu|v" []).rows) ∧
      (∀ r ∈ (parse_markdown_table "A|B\n--|--\nx|y\np|q|r\nu|v" []).rows,
        r.length = (split_row "A|B").length)) :=
  ⟨by decide, malformed_rows_dropped _ "A|B" ["--|--", "x|y", "p|q|r", "u|v"] (by decide)⟩

/-! ## Claim C3 -/

/-- Claim C3, the code evaluated at a failing input: one document carrying
poi_name, latitude and longitude metadata is supplied next to a one-row
table, and the extractor output contains no metadata column at all (the
attribute access meta.latitude on a dict raises AttributeError for every
document, so each document contributes the empty record and the
positional join degenerates), contradicting the claimed join of row 0
with the metadata of document 0 and the source comment at
utilities.py line 64. -/
theorem parse_markdown_table_metadata_lost :
    parse_markdown_table "A|B\n--|--\nx|y"
      [{ page_content := "snip",
         metadata := [("poi_name", "P"), ("latitude", "1.0"), ("longitude", "2.0")] }] =
      ⟨["A", "B"], [["x", "y"]]⟩ := by
  decide

/-! ## Facts about the retrieval pipeline -/

theorem docsAux_length (user : ℝ × ℝ) (search : Nat → SearchFetch) (k : Nat)
    (l : List POI) : (docsAux user search k l).length = l.length := by
  induction l generalizing k with
  | nil => rfl
  | cons p ps ih => simp [docsAux, ih]

theorem docsAux_getElem (user : ℝ × ℝ) (search : Nat → SearchFetch) (k j : Nat)
    (l : List POI) :
    (docsAux user search k l)[j]? =
      (l[j]?).map (fun poi => mkDocument user (search (k + j)) poi) := by
  induction l generalizing k j with
  | nil => simp [docsAux]
  | cons p ps ih =>
    cases j with
    | zero => simp [docsAux]
    | succ j =>
      simp only [docsAux, List.getElem?_cons_succ]
      rw [ih (k + 1) j, show k + 1 + j = k + (j + 1) from by omega]

theorem mapData_skip (l : List AppDocument) (i : Nat) (d : AppDocument)
    (hd : l[i]? = some d) (hnt : ¬ (truthyR d.latitude ∧ truthyR d.longitude)) :
    mapData l = mapData (l.eraseIdx i) := by
  induction l generalizing i with
  | nil => simp at hd
  | cons x xs ih =>
    cases i with
    | zero =>
      rw [List.getElem?_cons_zero] at hd
      obtain rfl := Option.some.inj hd
      show mapData (x :: xs) = mapData xs
      simp only [mapData, if_neg hnt]
    | succ i =>
      rw [List.getElem?_cons_succ] at hd
      show mapData (x :: xs) = mapData (x :: xs.eraseIdx i)
      simp only [mapData]
      split
      · rw [ih i hd]
      · exact ih i hd

theorem get_rag_response_empty_docs (user : ℝ × ℝ) (maps : MapsFetch)
    (search : Nat → SearchFetch) (llm : String → String)
    (h : _get_relevant_documents user maps search = []) :
    get_rag_response user maps search llm =
      ("Sorry, I couldn\x27t find anything for that search.", none) := by
  simp only [get_rag_response]
  rw [if_pos (by simp [h])]

theorem get_rag_response_found_docs (user : ℝ × ℝ) (maps : MapsFetch)
    (search : Nat → SearchFetch) (llm : String → String)
    (h : _get_relevant_documents user maps search ≠ []) :
    get_rag_response user maps search llm =
      (llm (promptApply (format_docs_for_prompt (_get_relevant_documents user maps search))),
       some (mapData (_get_relevant_documents user maps search))) := by
  simp only [get_rag_response]
  rw [if_neg (by simpa using h)]

/-! ## Claim C8 -/

/-- Claim C8: whenever the mapping provider yields an empty POI list,
which covers the HTTP-error case, every non-OK body status (the reported
provider-error case) and an OK body with empty results, the pipeline
yields the empty document sequence and get_rag_response returns the fixed
nothing-found text with no map data, for EVERY language-model function,
so the summarization call is never invoked. -/
theorem zero_poi_short_circuit (user : ℝ × ℝ) (maps : MapsFetch)
    (search : Nat → SearchFetch)
    (h : maps = MapsFetch.httpError ∨
      ∃ st rs, maps = MapsFetch.response st rs ∧ (st ≠ "OK" ∨ rs = [])) :
    _get_pois_from_maps maps = [] ∧
    _get_relevant_documents user maps search = [] ∧
    ∀ llm, get_rag_response user maps search llm =
      ("Sorry, I couldn\x27t find anything for that search.", none) := by
  have hpois : _get_pois_from_maps maps = [] := by
    rcases h with rfl | ⟨st, rs, rfl, hcase⟩
    · rfl
    · rcases hcase with hst | rfl
      · simp [_get_pois_from_maps, hst]
      · simp [_get_pois_from_maps]
  have hdocs : _get_relevant_documents user maps search = [] := by
    unfold _get_relevant_documents
    rw [hpois]
    rfl
  exact ⟨hpois, hdocs, fun llm => get_rag_response_empty_docs user maps search llm hdocs⟩

/-- Witness for claim C8: a provider body with a non-success status (and a
nonempty raw results list, showing the status alone forces the empty
mapping) short-circuits the pipeline for the identity language model. -/
theorem zero_poi_short_circuit_witness :
    _get_pois_from_maps (MapsFetch.response "REQUEST_DENIED" [poiP]) = [] ∧
    _get_relevant_documents (0, 0) (MapsFetch.response "REQUEST_DENIED" [poiP]) searchW = [] ∧
    get_rag_response (0, 0) (MapsFetch.response "REQUEST_DENIED" [poiP]) searchW
        (fun c => c) =
      ("Sorry, I couldn\x27t find anything for that search.", none) := by
  have h := zero_poi_short_circuit (0, 0) (MapsFetch.response "REQUEST_DENIED" [poiP]) searchW
    (Or.inr ⟨"REQUEST_DENIED", [poiP], rfl, Or.inl (by decide)⟩)
  exact ⟨h.1, h.2.1, h.2.2 (fun c => c)⟩

/-! ## Claim C9 -/

/-- Claim C9: when the search fetch for the i-th POI fails or returns no
items, the pipeline still produces exactly one document per POI; the i-th
document carries one of the fixed placeholder snippets, and every other
document is exactly the one built from its own POI and its own search
outcome, in provider order. -/
theorem snippet_failure_isolation (user : ℝ × ℝ) (maps : MapsFetch)
    (search : Nat → SearchFetch) (i : Nat)
    (hi : i < (_get_pois_from_maps maps).length)
    (hfail : search i = SearchFetch.httpError ∨ search i = SearchFetch.response []) :
    (_get_relevant_documents user maps search).length = (_get_pois_from_maps maps).length ∧
    (∃ d, (_get_relevant_documents user maps search)[i]? = some d ∧
      (d.page_content = "No description found." ∨
        d.page_content = "Error fetching description.")) ∧
    (∀ j, j ≠ i → (_get_relevant_documents user maps search)[j]? =
      ((_get_pois_from_maps maps)[j]?).map (fun poi => mkDocument user (search j) poi)) := by
  refine ⟨docsAux_length user search 0 _, ?_, ?_⟩
  · refine ⟨mkDocument user (search i) ((_get_pois_from_maps maps)[i]), ?_, ?_⟩
    · show (docsAux user search 0 _)[i]? = _
      rw [docsAux_getElem, List.getElem?_eq_getElem hi, Nat.zero_add]
      rfl
    · rcases hfail with hf | hf <;> rw [hf]
      · right; rfl
      · left; rfl
  · intro j hj
    show (docsAux user search 0 _)[j]? = _
    rw [docsAux_getElem, Nat.zero_add]

/-- Witness for claim C9: two POIs under an OK status; the first snippet
call returns no items while the second returns a snippet. -/
theorem snippet_failure_isolation_witness :
    0 < (_get_pois_from_maps (MapsFetch.response "OK" [poiP, poiQ])).length ∧
    (searchW 0 = SearchFetch.httpError ∨ searchW 0 = SearchFetch.response []) ∧
    ((_get_relevant_documents (0, 0) (MapsFetch.response "OK" [poiP, poiQ]) searchW).length =
      (_get_pois_from_maps (MapsFetch.response "OK" [poiP, poiQ])).length ∧
    (∃ d, (_get_relevant_documents (0, 0) (MapsFetch.response "OK" [poiP, poiQ]) searchW)[0]? =
        some d ∧
      (d.page_content = "No description found." ∨
        d.page_content = "Error fetching description.")) ∧
    (∀ j, j ≠ 0 →
      (_get_relevant_documents (0, 0) (MapsFetch.response "OK" [poiP, poiQ]) searchW)[j]? =
      ((_get_pois_from_maps (MapsFetch.response "OK" [poiP, poiQ]))[j]?).map
        (fun poi => mkDocument (0, 0) (searchW j) poi))) := by
  have hi : 0 < (_get_pois_from_maps (MapsFetch.response "OK" [poiP, poiQ])).length := by
    simp [_get_pois_from_maps]
  have hfail : searchW 0 = SearchFetch.httpError ∨ searchW 0 = SearchFetch.response [] :=
    Or.inr rfl
  exact ⟨hi, hfail,
    snippet_failure_isolation (0, 0) (MapsFetch.response "OK" [poiP, poiQ]) searchW 0 hi hfail⟩

/-! ## Claim C10 -/

/-- Claim C10: a POI whose returned latitude or longitude equals 0.0 is
treated exactly like one with absent coordinates, because the source tests
coordinate truthiness: its document carries the "N/A" distance sentinel
instead of a computed distance, and the map data of the pipeline is the
same as if that document were removed, i.e. the POI is excluded from the
returned map data. -/
theorem zero_coordinate_excluded (user : ℝ × ℝ) (maps : MapsFetch)
    (search : Nat → SearchFetch) (i : Nat) (p : POI)
    (hp : (_get_pois_from_maps maps)[i]? = some p)
    (hzero : p.lat = some 0 ∨ p.lng = some 0) :
    (∃ d, (_get_relevant_documents user maps search)[i]? = some d ∧
      d.distance_km = DistTag.na) ∧
    mapData (_get_relevant_documents user maps search) =
      mapData ((_get_relevant_documents user maps search).eraseIdx i) ∧
    ∀ llm, (get_rag_response user maps search llm).2 =
      some (mapData ((_get_relevant_documents user maps search).eraseIdx i)) := by
  have hnt : ¬ (truthyR p.lat ∧ truthyR p.lng) := by
    rcases hzero with hz | hz <;> rw [hz]
    · rintro ⟨h1, _⟩; exact h1 rfl
    · rintro ⟨_, h2⟩; exact h2 rfl
  have hdoc : (_get_relevant_documents user maps search)[i]? =
      some (mkDocument user (search i) p) := by
    show (docsAux user search 0 _)[i]? = _
    rw [docsAux_getElem, hp, Nat.zero_add]
    rfl
  have hdist : (mkDocument user (search i) p).distance_km = DistTag.na := by
    simp only [mkDocument]
    rw [if_neg hnt]
  have hskip : mapData (_get_relevant_documents user maps search) =
      mapData ((_get_relevant_documents user maps search).eraseIdx i) :=
    mapData_skip _ i (mkDocument user (search i) p) hdoc hnt
  have hne : _get_relevant_documents user maps search ≠ [] := by
    intro hnil
    rw [hnil] at hdoc
    simp at hdoc
  refine ⟨⟨_, hdoc, hdist⟩, hskip, ?_⟩
  intro llm
  rw [get_rag_response_found_docs user maps search llm hne]
  rw [← hskip]

/-- Witness for claim C10: one POI at latitude exactly 0.0 (longitude 55)
under an OK status; its document gets the "N/A" distance and the map data
equals the map data without it. -/
theorem zero_coordinate_excluded_witness :
    (_get_pois_from_maps (MapsFetch.response "OK" [poiZ]))[0]? = some poiZ ∧
    (poiZ.lat = some 0 ∨ poiZ.lng = some 0) ∧
    (∃ d, (_get_relevant_documents (25, 55) (MapsFetch.response "OK" [poiZ]) searchW)[0]? =
        some d ∧ d.distance_km = DistTag.na) ∧
    mapData (_get_relevant_documents (25, 55) (MapsFetch.response "OK" [poiZ]) searchW) =
      mapData ((_get_relevant_documents (25, 55)
        (MapsFetch.response "OK" [poiZ]) searchW).eraseIdx 0) ∧
    (get_rag_response (25, 55) (MapsFetch.response "OK" [poiZ]) searchW (fun c => c)).2 =
      some (mapData ((_get_relevant_documents (25, 55)
        (MapsFetch.response "OK" [poiZ]) searchW).eraseIdx 0)) := by
  have hp : (_get_pois_from_maps (MapsFetch.response "OK" [poiZ]))[0]? = some poiZ := by
    simp [_get_pois_from_maps]
  have hz : poiZ.lat = some 0 ∨ poiZ.lng = some 0 := Or.inl rfl
  have h := zero_coordinate_excluded (25, 55) (MapsFetch.response "OK" [poiZ]) searchW 0 poiZ
    hp hz
  exact ⟨hp, hz, h.1, h.2.1, h.2.2 (fun c => c)⟩
